import Mathlib

/-! Verification development for the figma-structured-mcp export pipeline.
The Python sources under src/figma_structured_mcp are shallowly embedded:
pure computations become Lean functions over Nat / Int / Rat / String,
HTTP traffic is modelled by explicit response oracles passed as arguments,
and every network request actually issued is returned as an explicit trace. -/

set_option linter.unusedVariables false

namespace FigmaMcp

/-! Python primitive modelling helpers. -/

/-- Python int() applied to a rational: truncation toward zero. -/
def pyInt (x : ℚ) : ℤ := if 0 ≤ x then ⌊x⌋ else ⌈x⌉

/-- Python decimal digit characters, as produced by str() on a nonnegative int. -/
def digitChar : Nat → Char
  | 0 => '0' | 1 => '1' | 2 => '2' | 3 => '3' | 4 => '4'
  | 5 => '5' | 6 => '6' | 7 => '7' | 8 => '8' | _ => '9'

/-- Fuel-driven accumulator loop for decimal rendering of a natural number. -/
def natToCharsAux : Nat → Nat → List Char → List Char
  | 0, _, acc => acc
  | fuel + 1, n, acc =>
    if n < 10 then digitChar n :: acc
    else natToCharsAux fuel (n / 10) (digitChar (n % 10) :: acc)

/-- Python str() on a nonnegative integer: its decimal representation. -/
def natToString (n : Nat) : String := ⟨natToCharsAux (n + 1) n []⟩

/-- Python os.path.basename: the final path component after the last slash. -/
def basename (p : String) : String := ⟨(p.data.reverse.takeWhile (· ≠ '/')).reverse⟩

/-- Python str.strip(): drop leading and trailing whitespace. -/
def pyStrip (s : String) : String :=
  ⟨((s.data.dropWhile Char.isWhitespace).reverse.dropWhile Char.isWhitespace).reverse⟩

/-- Characters replaced by the filename sanitizer regex in image_export.py. -/
def illegalFilenameChars : List Char := ['<', '>', ':', '"', '/', '\\', '|', '?', '*']

/-- One step of the re.sub sanitizer: an illegal character becomes an underscore. -/
def sanitizeChar (c : Char) : Char := if c ∈ illegalFilenameChars then '_' else c

/-- The sanitizer of image_export.py: replace illegal characters, then strip. -/
def sanitizeName (s : String) : String := pyStrip ⟨s.data.map sanitizeChar⟩

/-- Suffix test on strings, modelling a rglob star-pattern match of an extension. -/
def strEndsWith (s suf : String) : Bool := suf.data.isSuffixOf s.data

/-! Embedding of image_compression.py (quality policy of compress_image and
compress_png_with_pngquant).  Filesystem and subprocess effects are out of the
embedding; the compression decision computed from path suffix, detected image
format and quality is modelled exactly. -/

/-- Python max(0.0, min(1.0, quality)) from compress_image. -/
def clampQuality (q : ℚ) : ℚ := max 0 (min 1 q)

/-- The PIL encoder quality scalar of compress_image for JPEG and WEBP:
int(1 + quality * 99) clamped into [1, 100]. -/
def pilQualityScalar (q : ℚ) : ℤ := max 1 (min 100 (pyInt (1 + q * 99)))

/-- The pngquant quality range of compress_png_with_pngquant:
min = int(5 + q*80) clamped to [5,85], max = int(20 + q*75) clamped to [20,95],
and max is forced to min+10 whenever max <= min. -/
def pngquantRange (q : ℚ) : ℤ × ℤ :=
  let minQ : ℤ := pyInt (5 + q * 80)
  let maxQ : ℤ := pyInt (20 + q * 75)
  let minC : ℤ := max 5 (min 85 minQ)
  let maxC : ℤ := max 20 (min 95 maxQ)
  if maxC ≤ minC then (minC, minC + 10) else (minC, maxC)

/-- The format-specific compression action compress_image decides on. -/
inductive CompressPolicy where
  | pngquant (minQ maxQ : ℤ)
  | pil (fmt : String) (forceRGB : Bool) (quality : ℤ)
  | passthrough
deriving DecidableEq

/-- Python str.upper(), character by character (ASCII suffices here). -/
def pyToUpper (s : String) : String := ⟨s.data.map Char.toUpper⟩

/-- Python str.lower(), character by character (ASCII suffices here). -/
def pyToLower (s : String) : String := ⟨s.data.map Char.toLower⟩

/-- image_path.suffix.upper().lstrip(".") from compress_image. -/
def fileFormatOf (suffixStr : String) : String :=
  ⟨(pyToUpper suffixStr).data.dropWhile (· = '.')⟩

/-- Python img.format or file_format: the falsy detected format falls back. -/
def effectiveFormat (detected : Option String) (ff : String) : String :=
  match detected with
  | some s => if s = "" then ff else s
  | none => ff

/-- The quality policy of compress_image: clamp the quality into [0,1],
then dispatch on the file suffix (PNG goes to pngquant) and otherwise on the
PIL-detected format (JPEG and WEBP are lossy re-encodes, anything else is a
plain optimize-and-resave). -/
def compress_image_policy (suffixStr : String) (detected : Option String) (q : ℚ) :
    CompressPolicy :=
  let q := clampQuality q
  let ff := fileFormatOf suffixStr
  if ff = "PNG" then
    .pngquant (pngquantRange q).1 (pngquantRange q).2
  else
    let imgFormat := effectiveFormat detected ff
    if pyToUpper imgFormat = "JPEG" ∨ pyToUpper imgFormat = "JPG" then
      .pil "JPEG" true (pilQualityScalar q)
    else if pyToUpper imgFormat = "WEBP" then
      .pil "WEBP" false (pilQualityScalar q)
    else .passthrough

/-! Embedding of file_upload.py.  JSON response bodies are modelled by JVal;
the provider network call is an oracle String -> UploadOutcome giving the
outcome of the POST for a given local path. -/

/-- JSON-like values as Python's json.loads produces them (numbers as ints). -/
inductive JVal where
  | null
  | bool (b : Bool)
  | num (n : ℤ)
  | str (s : String)
  | obj (fields : List (String × JVal))
  | arr (elems : List JVal)

/-- Python dict.get(key) on a JSON object: first binding or None. -/
def dget (fields : List (String × JVal)) (key : String) : Option JVal :=
  fields.lookup key

/-- Python dict.get(key, default). -/
def dgetD (fields : List (String × JVal)) (key : String) (d : JVal) : JVal :=
  (dget fields key).getD d

/-- Python truthiness of an optional JSON value (None is falsy). -/
def pyTruthy : Option JVal → Bool
  | none => false
  | some .null => false
  | some (.bool b) => b
  | some (.num n) => n != 0
  | some (.str s) => s != ""
  | some (.obj f) => !f.isEmpty
  | some (.arr e) => !e.isEmpty

/-- Python comparison value == 0 for an optional JSON value; note that in
Python False == 0 holds, while None == 0 and "0" == 0 do not. -/
def pyEqZero : Option JVal → Bool
  | some (.num n) => n == 0
  | some (.bool b) => !b
  | _ => false

/-- CustomUploader._parse_response: returns (url, error). The success branch
is taken when the body carries code == 0 or a truthy success field; inside it
a string data field is the url, an object data field contributes its url
member, and otherwise the top-level url field is used.  Every other body
produces the message field (or a fixed default) as the error. -/
def parse_response (fields : List (String × JVal)) : Option JVal × Option JVal :=
  if pyEqZero (dget fields "code") || pyTruthy (dget fields "success") then
    match dget fields "data" with
    | some (.str s) => (some (.str s), none)
    | some (.obj o) => (dget o "url", none)
    | _ => (dget fields "url", none)
  else
    (none, some (dgetD fields "message" (.str "Unknown server error")))

/-- Outcome of the provider POST for one local file, as an oracle value:
a returned URL with the file size, a structured per-file failure, or a raised
exception (which upload_file converts into a structured failure). -/
inductive UploadOutcome where
  | ok (size : Nat) (url : String)
  | fail (error : String)
  | exc (msg : String)

/-- The per-file result dict produced by upload_file: either the success
shape with file_name, file_size, url and file_path, or the failure shape
with error and file_path. -/
inductive UploadRec where
  | ok (file_name : String) (file_size : Nat) (url : String) (file_path : String)
  | fail (error : String) (file_path : String)
deriving DecidableEq

/-- Truthiness of the success field of an upload result dict. -/
def UploadRec.isOk : UploadRec → Bool
  | .ok .. => true
  | .fail .. => false

/-- The file_path field, present in both shapes. -/
def UploadRec.path : UploadRec → String
  | .ok _ _ _ p => p
  | .fail _ p => p

/-- r.get("file_size", 0) as used when totalling sizes. -/
def UploadRec.sizeD : UploadRec → Nat
  | .ok _ s _ _ => s
  | .fail _ _ => 0

/-- The file_name field of a success record (empty on the failure shape,
which never reaches the success list). -/
def UploadRec.fileNameD : UploadRec → String
  | .ok n _ _ _ => n
  | .fail _ _ => ""

/-- The url field of a success record. -/
def UploadRec.urlD : UploadRec → String
  | .ok _ _ u _ => u
  | .fail _ _ => ""

/-- The error field of a failure record. -/
def UploadRec.errorD : UploadRec → String
  | .ok _ _ _ _ => ""
  | .fail e _ => e

/-- upload_file: runs the provider for one path and converts any exception
into a structured per-file failure instead of propagating it. -/
def upload_file (up : String → UploadOutcome) (p : String) : UploadRec :=
  match up p with
  | .ok size url => .ok (basename p) size url p
  | .fail e => .fail e p
  | .exc m => .fail m p

/-- The aggregate dict returned by upload_multiple_files. -/
structure UploadBatchResult where
  success : Bool
  total_files : Nat
  successful_count : Nat
  failed_count : Nat
  successful_uploads : List UploadRec
  failed_uploads : List UploadRec
  total_size : Nat
deriving DecidableEq

/-- upload_multiple_files: fan each path out to upload_file, gather results
in task order, split them by the success flag and aggregate the counts. -/
def upload_multiple_files (up : String → UploadOutcome) (paths : List String) :
    UploadBatchResult :=
  let results := paths.map (upload_file up)
  let successful := results.filter (fun r => r.isOk)
  let failed := results.filter (fun r => !r.isOk)
  ⟨failed.isEmpty, paths.length, successful.length, failed.length,
    successful, failed, (successful.map (fun r => r.sizeD)).sum⟩

/-- The fixed image-extension allowlist of upload_folder_images. -/
def imageExtensions : List String := [".png", ".jpg", ".jpeg", ".gif", ".svg", ".webp"]

/-- upload_folder_images: filter the folder listing, extension group by
extension group, to image files; an empty match is a success with empty
result, otherwise delegate to upload_multiple_files. -/
def upload_folder_images (folder : List String) (up : String → UploadOutcome) :
    UploadBatchResult :=
  let image_files := imageExtensions.flatMap (fun ext =>
    folder.filter (fun p => strEndsWith p ext))
  if image_files = [] then ⟨true, 0, 0, 0, [], [], 0⟩
  else upload_multiple_files up image_files

/-! Embedding of exceptions.py: the fixed error messages produced by
handle_api_error and handle_exception. -/

/-- The three exception shapes distinguished by handle_exception. -/
inductive PyExc where
  | timeout
  | requestError (msg : String)
  | other (msg : String)

/-- handle_api_error: the fixed message per status code, enriched by the
err or message field scanned out of the response body when present. -/
def apiErrorMsg (status : Nat) (errField : Option String) : String :=
  let base :=
    if status = 403 then "访问被拒绝：请检查访问令牌权限或文件访问权限"
    else if status = 404 then "文件未找到：请检查文件密钥是否正确"
    else if status = 429 then "请求频率过高：已达到API速率限制，请稍后重试"
    else "API请求失败，状态码: " ++ natToString status
  match errField with
  | some m => base ++ ", 错误信息: " ++ m
  | none => base

/-- handle_exception: timeout, transport error and generic exception messages. -/
def excMsg (operation : String) : PyExc → String
  | .timeout => "请求超时：Figma API响应时间过长"
  | .requestError m => "网络请求错误: " ++ m
  | .other m => operation ++ "时发生未知错误: " ++ m

/-! Embedding of image_export.py. -/

/-- The network requests the pipeline can issue; each embedded function
returns alongside its result the trace of requests it actually issued. -/
inductive NetRequest where
  | nodesQuery (file_key ids : String) (depth : Nat)
  | imagesQuery (file_key ids fmt : String) (scale : ℚ)
  | download (url : String)
  | uploadPost (path : String)

/-- Outcome of one HTTP call against the remote service, as a response
oracle value: a 200 body, a non-200 status (with the best-effort error field
of its body), or a raised exception. -/
inductive FigmaResp (α : Type) where
  | ok (body : α)
  | badStatus (status : Nat) (errField : Option String)
  | exc (e : PyExc)

/-- The document member of one node entry of a /files/:key/nodes response:
its name (dict.get with default "") and its children's optional ids. -/
structure PyDocument where
  name : String
  children : List (Option String)

/-- One /files/:key/nodes response body: node id to optional document
(covering both a null node_info and a missing document member). -/
def NodesBody : Type := List (String × Option PyDocument)

/-- The child-id extraction loop of get_child_node_ids: every present id of
every direct child of every parent that has a document, in iteration order. -/
def extractChildIds (nodes : NodesBody) : List String :=
  nodes.flatMap (fun pr =>
    match pr.2 with
    | some doc => doc.children.filterMap id
    | none => [])

/-- Result dict of get_child_node_ids. -/
inductive ChildResult where
  | ok (child_node_ids : List String) (parent_nodes : List String) (total_children : Nat)
  | fail (error : String)

/-- get_child_node_ids: one depth-1 metadata query; a 200 response yields the
collected child ids, any other outcome the corresponding error dict. -/
def get_child_node_ids (file_key access_token node_ids : String)
    (resp : FigmaResp NodesBody) : ChildResult × List NetRequest :=
  (match resp with
    | .ok nodes =>
        .ok (extractChildIds nodes) (nodes.map (fun pr => pr.1)) (extractChildIds nodes).length
    | .badStatus s ef => .fail (apiErrorMsg s ef)
    | .exc e => .fail (excMsg "获取子节点信息" e)
  , [.nodesQuery file_key node_ids 1])

/-- A /images/:key response body: node id to url (an empty string models a
null or empty url) plus the optional top-level err field. -/
structure ImagesBody where
  images : List (String × String)
  err : Option String

/-- Result dict of get_figma_images_data (success fields collapsed to images,
err and failed_nodes; every failure shape collapsed to its error message). -/
inductive FetchResult where
  | ok (images : List (String × String)) (err : Option String) (failed_nodes : List String)
  | fail (error : String)

/-- The fixed format enum accepted by get_figma_images_data. -/
def validFormats : List String := ["jpg", "png", "svg", "pdf"]

/-- get_figma_images_data: validate the format against the enum and the scale
against [0.01, 4.0] before any network traffic; only then issue the single
images query and interpret its outcome.  The returned trace holds the
requests actually issued. -/
def get_figma_images_data (file_key access_token node_ids fmt : String) (scale : ℚ)
    (resp : FigmaResp ImagesBody) : FetchResult × List NetRequest :=
  if fmt ∉ validFormats then
    (.fail ("无效的图像格式: " ++ fmt ++ "。支持的格式: jpg, png, svg, pdf"), [])
  else if ¬((1 / 100 : ℚ) ≤ scale ∧ scale ≤ 4) then
    (.fail ("无效的缩放比例: 缩放比例必须在0.01到4之间"), [])
  else
    (match resp with
      | .ok body =>
          .ok body.images body.err ((body.images.filter (fun pr => pr.2 = "")).map (fun pr => pr.1))
      | .badStatus s ef => .fail (apiErrorMsg s ef)
      | .exc e => .fail (excMsg "获取Figma图像" e)
    , [.imagesQuery file_key node_ids fmt scale])

/-! The download loop of download_image_from_url, with its retry budget and
exponential backoff. -/

/-- Outcome of one GET of the image URL: a status code with a body size, or a
raised exception. -/
inductive AttemptOutcome where
  | resp (status : Nat) (size : Nat)
  | exc (msg : String)

/-- Outcome of the in-place compression invoked after a successful download. -/
inductive CompressOutcome where
  | ok (original compressed : Nat)
  | fail (error : String)

/-- The result dict of download_image_from_url, with the compression fields
merged in on the success path. -/
structure DownloadRec where
  success : Bool
  file_path : String
  filename : String
  file_size : Nat
  error : Option String
  compressed : Option Bool
  compression_error : Option String
deriving DecidableEq

/-- Python Path(p).suffix.lower() membership in the compressible set, as
checked by is_compression_supported (suffix = final dot extension). -/
def isCompressionSupported (p : String) : Bool :=
  let nm := (basename p).data
  let afterDot := nm.reverse.takeWhile (· ≠ '.')
  if afterDot.length + 1 < nm.length then
    decide (pyToLower ("." ++ (⟨afterDot.reverse⟩ : String)) ∈ [".jpg", ".jpeg", ".png", ".webp"])
  else false

/-- The success-path record of the download loop: write the bytes, then merge
the compression outcome when the extension is compressible (a compression
failure is non-fatal and only annotates the record). -/
def downloadSuccessRec (co : CompressOutcome) (dir fname : String) (size : Nat) :
    DownloadRec :=
  let full := dir ++ "/" ++ fname
  if isCompressionSupported full then
    match co with
    | .ok _orig comp => ⟨true, full, fname, comp, none, some true, none⟩
    | .fail e => ⟨true, full, fname, size, none, some false, some e⟩
  else ⟨true, full, fname, size, none, none, none⟩

/-- The retry loop of download_image_from_url over attempt indices, driven by
the remaining-iteration fuel of the Python range.  Returns the result record,
the list of backoff sleeps performed (2 ^ attempt before each retry) and the
number of attempts made. -/
def downloadAttempts (oracle : Nat → AttemptOutcome) (co : CompressOutcome)
    (dir fname : String) (max_retries : Nat) :
    Nat → Nat → DownloadRec × List Nat × Nat
  | _, 0 => (⟨false, "", "", 0, some "所有下载尝试都失败了", none, none⟩, [], 0)
  | attempt, fuel + 1 =>
    match oracle attempt with
    | .resp status size =>
        if status = 200 then (downloadSuccessRec co dir fname size, [], 1)
        else if attempt < max_retries then
          let rest := downloadAttempts oracle co dir fname max_retries (attempt + 1) fuel
          (rest.1, 2 ^ attempt :: rest.2.1, rest.2.2 + 1)
        else
          (⟨false, "", "", 0, some ("下载失败，状态码: " ++ natToString status), none, none⟩, [], 1)
    | .exc m =>
        if attempt < max_retries then
          let rest := downloadAttempts oracle co dir fname max_retries (attempt + 1) fuel
          (rest.1, 2 ^ attempt :: rest.2.1, rest.2.2 + 1)
        else
          (⟨false, "", "", 0, some ("下载图像时发生错误: " ++ m), none, none⟩, [], 1)

/-- download_image_from_url: run the attempt loop for max_retries + 1 total
tries starting at attempt 0. -/
def download_image_from_url (oracle : Nat → AttemptOutcome) (co : CompressOutcome)
    (dir fname : String) (max_retries : Nat) : DownloadRec × List Nat × Nat :=
  downloadAttempts oracle co dir fname max_retries 0 (max_retries + 1)

/-! The per-node name resolution and filename choice of
export_figma_images_to_folder. -/

/-- The node_names dict built from the depth-1 metadata response: a node
contributes its sanitized name when both the stripped raw name and the
sanitized name are nonempty. -/
def buildNodeNames : NodesBody → List (String × String)
  | [] => []
  | (node_id, doc?) :: rest =>
    let tail := buildNodeNames rest
    match doc? with
    | some doc =>
        let node_name := pyStrip doc.name
        if node_name ≠ "" then
          let safe := sanitizeName node_name
          if safe ≠ "" then (node_id, safe) :: tail else tail
        else tail
    | none => tail

/-- The fallback filename: figma_export_ + node id + per-run timestamp +
1-based positional index + extension. -/
def fallbackFilename (node_id timestamp fmt : String) (i : Nat) : String :=
  "figma_export_" ++ node_id ++ "_" ++ timestamp ++ "_" ++ natToString (i + 1) ++ "." ++ fmt

/-- The filename chosen for a node: the sanitized node name when resolved,
otherwise the fallback form. -/
def chooseFilename (node_names : List (String × String)) (node_id : String) (i : Nat)
    (timestamp fmt : String) : String :=
  match node_names.lookup node_id with
  | some nm => nm ++ "." ++ fmt
  | none => fallbackFilename node_id timestamp fmt i

/-- A node whose download failed (or was never attempted), as recorded in
failed_downloads. -/
structure NodeFailure where
  node_id : String
  error : String
deriving DecidableEq

/-- An entry of downloaded_files. -/
structure DownloadedFile where
  node_id : String
  file_path : String
  filename : String
  file_size : Nat
  uses_original_name : Bool
deriving DecidableEq

/-- The task-building loop of export_figma_images_to_folder: enumerate the
fetched image mapping; a node with an empty url is recorded as a failed
download and never dispatched, every other node gets a filename and a
download task (node id, url, filename). -/
def buildDownloadPlanAux (node_names : List (String × String)) (timestamp fmt : String) :
    Nat → List (String × String) → List (String × String × String) × List NodeFailure
  | _, [] => ([], [])
  | i, (node_id, url) :: rest =>
    if url = "" then
      let tail := buildDownloadPlanAux node_names timestamp fmt (i + 1) rest
      (tail.1, ⟨node_id, "图像URL为空"⟩ :: tail.2)
    else
      let fname := chooseFilename node_names node_id i timestamp fmt
      let tail := buildDownloadPlanAux node_names timestamp fmt (i + 1) rest
      ((node_id, url, fname) :: tail.1, tail.2)

/-- The task-building loop started at enumerate index 0. -/
def buildDownloadPlan (node_names : List (String × String)) (timestamp fmt : String)
    (images : List (String × String)) :
    List (String × String × String) × List NodeFailure :=
  buildDownloadPlanAux node_names timestamp fmt 0 images

/-- Result of one gathered download task: either a raised exception captured
by return_exceptions=True, or the result dict of download_image_from_url. -/
inductive DLResult where
  | exc (msg : String)
  | res (r : DownloadRec)

/-- The result-processing loop of export_figma_images_to_folder: an exception
or a falsy success flag sends the node to failed_downloads (with the error
field or the fixed fallback message), a successful dict is folded into a
downloaded_files entry re-associated with its node id. -/
def processDownloadResults (node_names : List (String × String)) :
    List (String × DLResult) → List DownloadedFile × List NodeFailure
  | [] => ([], [])
  | (node_id, r) :: rest =>
    let tail := processDownloadResults node_names rest
    match r with
    | .exc m => (tail.1, ⟨node_id, m⟩ :: tail.2)
    | .res rec =>
        if rec.success then
          (⟨node_id, rec.file_path, rec.filename, rec.file_size,
              (node_names.lookup node_id).isSome⟩ :: tail.1, tail.2)
        else
          (tail.1, ⟨node_id, rec.error.getD "下载失败"⟩ :: tail.2)

/-- The success dict of export_figma_images_to_folder (failed_downloads is
attached only when nonempty; an empty list models the absent key). -/
structure ExportOk where
  file_key : String
  fmt : String
  scale : ℚ
  downloaded_files : List DownloadedFile
  failed_downloads : List NodeFailure
deriving DecidableEq

/-- Result of export_figma_images_to_folder: the success dict or an error
dict collapsed to its message. -/
inductive ExportResult where
  | ok (r : ExportOk)
  | err (error : String)
deriving DecidableEq

/-- export_figma_images_to_folder: best-effort name resolution (failures
degrade to the fallback filenames), the validated URL fetch, then the
concurrent dispatch of one download per resolvable node; empty-url nodes are
recorded as failures without a download, and dispatch results are gathered in
task order and re-associated with their node ids. -/
def export_figma_images_to_folder (file_key access_token node_ids fmt : String)
    (scale compression_quality : ℚ)
    (namesResp : FigmaResp NodesBody) (imagesResp : FigmaResp ImagesBody)
    (dl : String → DLResult) (timestamp : String) : ExportResult × List NetRequest :=
  let node_names := match namesResp with
    | .ok nodes => buildNodeNames nodes
    | _ => []
  let fetched := get_figma_images_data file_key access_token node_ids fmt scale imagesResp
  let reqs0 := NetRequest.nodesQuery file_key node_ids 1 :: fetched.2
  match fetched.1 with
  | .fail e => (.err e, reqs0)
  | .ok images _err _failed =>
    if images = [] then (.err "未获取到任何图像URL", reqs0)
    else
      let plan := buildDownloadPlan node_names timestamp fmt images
      let results := plan.1.map (fun t => (t.1, dl t.1))
      let processed := processDownloadResults node_names results
      (.ok ⟨file_key, fmt, scale, processed.1, plan.2 ++ processed.2⟩,
        reqs0 ++ plan.1.map (fun t => .download t.2.1))

/-! Embedding of server.py (the get_figma_images tool). -/

/-- The caller-visible entries of successful_uploads: name and url. -/
structure NameUrl where
  name : String
  url : String
deriving DecidableEq

/-- The caller-visible entries of failed_uploads: name and error. -/
structure NameErr where
  name : String
  error : String
deriving DecidableEq

/-- What the tool returns: an error dict (collapsed to its message) or the
final report of successful and failed uploads. -/
inductive ServerResult where
  | err (error : String)
  | report (successful_uploads : List NameUrl) (failed_uploads : List NameErr)
deriving DecidableEq

/-- The export-then-upload tail of the tool: run the folder export, stop on
its error, and when files were downloaded, upload the staging folder (whose
contents are exactly this run's downloaded files, the folder having been
cleared at the start of the run) and project the upload aggregate onto the
name/url and name/error report lists. -/
def serverExportAndUpload (file_key access_token target_node_ids fmt : String)
    (scale compression_quality : ℚ)
    (namesResp : FigmaResp NodesBody) (imagesResp : FigmaResp ImagesBody)
    (dl : String → DLResult) (up : String → UploadOutcome) (timestamp : String)
    (reqs0 : List NetRequest) : ServerResult × List NetRequest :=
  let ex := export_figma_images_to_folder file_key access_token target_node_ids fmt
    scale compression_quality namesResp imagesResp dl timestamp
  match ex.1 with
  | .err e => (.err e, reqs0 ++ ex.2)
  | .ok ok =>
    if ok.downloaded_files = [] then (.report [] [], reqs0 ++ ex.2)
    else
      let folder := ok.downloaded_files.map (fun d => "temp-images/" ++ d.filename)
      let ur := upload_folder_images folder up
      let su := ur.successful_uploads.map (fun r => NameUrl.mk r.fileNameD r.urlD)
      let fu := ur.failed_uploads.map (fun r => NameErr.mk (basename r.path) r.errorD)
      (.report su fu, reqs0 ++ ex.2 ++ folder.map (fun p => .uploadPost p))

/-- get_figma_images: check the access token, clear the staging folder, then
when export_children is set resolve the child ids first (no children is a
terminal error for the call, with no further network traffic), and finally
run the export-then-upload tail on the chosen target ids. -/
def get_figma_images (file_key node_ids fmt : String)
    (scale compression_quality : ℚ) (export_children : Bool) (access_token : String)
    (childResp namesResp : FigmaResp NodesBody) (imagesResp : FigmaResp ImagesBody)
    (dl : String → DLResult) (up : String → UploadOutcome) (timestamp : String) :
    ServerResult × List NetRequest :=
  if access_token = "" then (.err "未找到FIGMA_ACCESS_TOKEN环境变量", [])
  else if export_children then
    let child := get_child_node_ids file_key access_token node_ids childResp
    match child.1 with
    | .fail e => (.err e, child.2)
    | .ok children _parents _total =>
      if children = [] then (.err "指定节点没有子节点可导出", child.2)
      else
        serverExportAndUpload file_key access_token (String.intercalate "," children)
          fmt scale compression_quality namesResp imagesResp dl up timestamp child.2
  else
    serverExportAndUpload file_key access_token node_ids fmt scale compression_quality
      namesResp imagesResp dl up timestamp []

/-! Shared helper lemmas. -/

/-- For an in-range quality the clamp of compress_image is the identity. -/
lemma clampQuality_eq_self {q : ℚ} (h0 : 0 ≤ q) (h1 : q ≤ 1) : clampQuality q = q := by
  unfold clampQuality
  rw [min_eq_right h1, max_eq_right h0]

/-- The clamped quality always lands in [0, 1]. -/
lemma clampQuality_mem (q : ℚ) : 0 ≤ clampQuality q ∧ clampQuality q ≤ 1 := by
  constructor
  · exact le_max_left 0 (min 1 q)
  · exact max_le (by norm_num) (min_le_left 1 q)

/-- Clamping is idempotent. -/
lemma clampQuality_idem (q : ℚ) : clampQuality (clampQuality q) = clampQuality q :=
  clampQuality_eq_self (clampQuality_mem q).1 (clampQuality_mem q).2

/-- On in-range quality the PIL scalar is exactly the floor of 1 + 99q. -/
lemma pilQualityScalar_eq_floor {q : ℚ} (h0 : 0 ≤ q) (h1 : q ≤ 1) :
    pilQualityScalar q = ⌊1 + q * 99⌋ := by
  have hx : (0 : ℚ) ≤ 1 + q * 99 := by nlinarith
  have hfl : (1 : ℤ) ≤ ⌊1 + q * 99⌋ := by
    rw [Int.le_floor]; push_cast; nlinarith
  have hfu : ⌊1 + q * 99⌋ ≤ 100 := by
    have hb : (1 : ℚ) + q * 99 ≤ 100 := by nlinarith
    calc ⌊1 + q * 99⌋ ≤ ⌊(100 : ℚ)⌋ := Int.floor_le_floor hb
    _ = 100 := by norm_num
  unfold pilQualityScalar pyInt
  rw [if_pos hx, min_eq_right hfu, max_eq_right hfl]

/-- On in-range quality the pngquant pair is the pair of plain floors: both
clamps are no-ops and the max-forcing branch is never taken. -/
lemma pngquantRange_eq_floors {q : ℚ} (h0 : 0 ≤ q) (h1 : q ≤ 1) :
    pngquantRange q = (⌊5 + q * 80⌋, ⌊20 + q * 75⌋) := by
  have ha : (0 : ℚ) ≤ 5 + q * 80 := by nlinarith
  have hb : (0 : ℚ) ≤ 20 + q * 75 := by nlinarith
  have hmin1 : (5 : ℤ) ≤ ⌊5 + q * 80⌋ := by rw [Int.le_floor]; push_cast; nlinarith
  have hmin2 : ⌊5 + q * 80⌋ ≤ 85 := by
    have h : (5 : ℚ) + q * 80 ≤ 85 := by nlinarith
    calc ⌊5 + q * 80⌋ ≤ ⌊(85 : ℚ)⌋ := Int.floor_le_floor h
    _ = 85 := by norm_num
  have hmax1 : (20 : ℤ) ≤ ⌊20 + q * 75⌋ := by rw [Int.le_floor]; push_cast; nlinarith
  have hmax2 : ⌊20 + q * 75⌋ ≤ 95 := by
    have h : (20 : ℚ) + q * 75 ≤ 95 := by nlinarith
    calc ⌊20 + q * 75⌋ ≤ ⌊(95 : ℚ)⌋ := Int.floor_le_floor h
    _ = 95 := by norm_num
  have hgap : ⌊5 + q * 80⌋ + 10 ≤ ⌊20 + q * 75⌋ := by
    have h : (5 : ℚ) + q * 80 + (10 : ℤ) ≤ 20 + q * 75 := by push_cast; nlinarith
    calc ⌊5 + q * 80⌋ + 10 = ⌊5 + q * 80 + (10 : ℤ)⌋ := (Int.floor_add_int _ _).symm
    _ ≤ ⌊20 + q * 75⌋ := Int.floor_le_floor h
  unfold pngquantRange pyInt
  simp only [if_pos ha, if_pos hb, min_eq_right hmin2, max_eq_right hmin1,
    min_eq_right hmax2, max_eq_right hmax1]
  rw [if_neg (by omega)]

/-! Claim C5. -/

/-- C5 counterexample: the claim says the encoder scalar equals
round(1 + 99q); at q = 0.46 the code computes int(1 + 0.46*99) = 46 while
round(46.54) = 47. -/
theorem c5_counterexample :
    pilQualityScalar (46 / 100) ≠ round ((1 : ℚ) + (46 / 100) * 99) := by
  norm_num [pilQualityScalar, pyInt, Int.floor_eq_iff, round_eq]

/-- C5 (amended): for quality q in [0,1] the encoder scalar used by
compress_image for JPEG and WEBP equals the floor (Python int truncation) of
1 + 99q, lies in [1,100], is monotone in q, and JPEG re-encoding forces the
3-channel RGB mode. -/
theorem c5_lossy_scalar_floor (q : ℚ) (h0 : 0 ≤ q) (h1 : q ≤ 1) :
    pilQualityScalar q = ⌊1 + q * 99⌋ ∧
    1 ≤ pilQualityScalar q ∧ pilQualityScalar q ≤ 100 ∧
    (∀ q2 : ℚ, q ≤ q2 → q2 ≤ 1 → pilQualityScalar q ≤ pilQualityScalar q2) ∧
    compress_image_policy ".jpg" (some "JPEG") q
      = .pil "JPEG" true (pilQualityScalar q) ∧
    compress_image_policy ".webp" (some "WEBP") q
      = .pil "WEBP" false (pilQualityScalar q) := by
  have hfl : (1 : ℤ) ≤ ⌊1 + q * 99⌋ := by rw [Int.le_floor]; push_cast; nlinarith
  have hfu : ⌊1 + q * 99⌋ ≤ 100 := by
    have hb : (1 : ℚ) + q * 99 ≤ 100 := by nlinarith
    calc ⌊1 + q * 99⌋ ≤ ⌊(100 : ℚ)⌋ := Int.floor_le_floor hb
    _ = 100 := by norm_num
  have heq := pilQualityScalar_eq_floor h0 h1
  have hclamp : clampQuality q = q := clampQuality_eq_self h0 h1
  refine ⟨heq, by omega, by omega, ?_, ?_, ?_⟩
  · intro q2 hle h2
    have h02 : (0 : ℚ) ≤ q2 := le_trans h0 hle
    rw [heq, pilQualityScalar_eq_floor h02 h2]
    exact Int.floor_le_floor (by nlinarith)
  · show compress_image_policy ".jpg" (some "JPEG") q
      = .pil "JPEG" true (pilQualityScalar q)
    have : compress_image_policy ".jpg" (some "JPEG") q
        = .pil "JPEG" true (pilQualityScalar (clampQuality q)) := rfl
    rw [this, hclamp]
  · have : compress_image_policy ".webp" (some "WEBP") q
        = .pil "WEBP" false (pilQualityScalar (clampQuality q)) := rfl
    rw [this, hclamp]

/-- C5 witness: the amended theorem applied at q = 1/2 gives scalar 50. -/
theorem c5_witness : pilQualityScalar (1 / 2) = 50 := by
  have h := c5_lossy_scalar_floor (1 / 2) (by norm_num) (by norm_num)
  rw [h.1]
  norm_num [Int.floor_eq_iff]

/-! Claim C6. -/

/-- C6 counterexample: the claim says min equals clamp(5 + q*80, 5, 85); at
q = 0.33 the code computes int(5 + 26.4) = 31 while the claimed clamp value
is 31.4. -/
theorem c6_counterexample :
    (((pngquantRange (33 / 100)).1 : ℚ)) ≠ max 5 (min 85 ((5 : ℚ) + (33 / 100) * 80)) := by
  norm_num [pngquantRange, pyInt, Int.floor_eq_iff]

/-- C6 (amended): for quality q in [0,1] the pngquant range computed by
compress_png_with_pngquant is (clamp(int(5 + q*80), 5, 85),
clamp(int(20 + q*75), 20, 95)) = (floor(5 + 80q), floor(20 + 75q)); it
satisfies min <= max, min in [5,85], max in [20,95] and max >= min + 10 (the
forcing branch is never needed), and is exactly what compress_image uses for
a PNG path. -/
theorem c6_pngquant_range (q : ℚ) (det : Option String) (h0 : 0 ≤ q) (h1 : q ≤ 1) :
    (pngquantRange q).1 = ⌊5 + q * 80⌋ ∧
    (pngquantRange q).2 = ⌊20 + q * 75⌋ ∧
    5 ≤ (pngquantRange q).1 ∧ (pngquantRange q).1 ≤ 85 ∧
    20 ≤ (pngquantRange q).2 ∧ (pngquantRange q).2 ≤ 95 ∧
    (pngquantRange q).1 + 10 ≤ (pngquantRange q).2 ∧
    (pngquantRange q).1 ≤ (pngquantRange q).2 ∧
    compress_image_policy ".png" det q
      = .pngquant (pngquantRange q).1 (pngquantRange q).2 := by
  have hr := pngquantRange_eq_floors h0 h1
  have hmin1 : (5 : ℤ) ≤ ⌊5 + q * 80⌋ := by rw [Int.le_floor]; push_cast; nlinarith
  have hmin2 : ⌊5 + q * 80⌋ ≤ 85 := by
    have h : (5 : ℚ) + q * 80 ≤ 85 := by nlinarith
    calc ⌊5 + q * 80⌋ ≤ ⌊(85 : ℚ)⌋ := Int.floor_le_floor h
    _ = 85 := by norm_num
  have hmax1 : (20 : ℤ) ≤ ⌊20 + q * 75⌋ := by rw [Int.le_floor]; push_cast; nlinarith
  have hmax2 : ⌊20 + q * 75⌋ ≤ 95 := by
    have h : (20 : ℚ) + q * 75 ≤ 95 := by nlinarith
    calc ⌊20 + q * 75⌋ ≤ ⌊(95 : ℚ)⌋ := Int.floor_le_floor h
    _ = 95 := by norm_num
  have hgap : ⌊5 + q * 80⌋ + 10 ≤ ⌊20 + q * 75⌋ := by
    have h : (5 : ℚ) + q * 80 + (10 : ℤ) ≤ 20 + q * 75 := by push_cast; nlinarith
    calc ⌊5 + q * 80⌋ + 10 = ⌊5 + q * 80 + (10 : ℤ)⌋ := (Int.floor_add_int _ _).symm
    _ ≤ ⌊20 + q * 75⌋ := Int.floor_le_floor h
  have hclamp : clampQuality q = q := clampQuality_eq_self h0 h1
  rw [hr]
  refine ⟨rfl, rfl, hmin1, hmin2, hmax1, hmax2, hgap, by omega, ?_⟩
  have hpol : compress_image_policy ".png" det q
      = .pngquant (pngquantRange (clampQuality q)).1 (pngquantRange (clampQuality q)).2 := rfl
  rw [hpol, hclamp, hr]

/-- C6 witness: the amended theorem applied at q = 17/20 gives range (73, 83). -/
theorem c6_witness :
    (pngquantRange (17 / 20)).1 = 73 ∧ (pngquantRange (17 / 20)).2 = 83 := by
  have h := c6_pngquant_range (17 / 20) none (by norm_num) (by norm_num)
  refine ⟨?_, ?_⟩
  · rw [h.1]; norm_num [Int.floor_eq_iff]
  · rw [h.2.1]; norm_num [Int.floor_eq_iff]

/-! Claim C10. -/

/-- C10: compress_image clamps the quality into [0,1] before any
format-specific mapping, so an out-of-range quality yields the same policy as
the nearest in-range value (0 for negative, 1 for above-one, itself inside). -/
theorem c10_quality_clamped (q : ℚ) (suffixStr : String) (detected : Option String) :
    compress_image_policy suffixStr detected q
      = compress_image_policy suffixStr detected (clampQuality q) ∧
    0 ≤ clampQuality q ∧ clampQuality q ≤ 1 ∧
    (q < 0 → clampQuality q = 0) ∧
    (1 < q → clampQuality q = 1) ∧
    (0 ≤ q → q ≤ 1 → clampQuality q = q) := by
  refine ⟨?_, (clampQuality_mem q).1, (clampQuality_mem q).2, ?_, ?_, ?_⟩
  · show compress_image_policy suffixStr detected q
      = compress_image_policy suffixStr detected (clampQuality q)
    unfold compress_image_policy
    rw [clampQuality_idem]
  · intro hq
    unfold clampQuality
    rw [min_eq_right (le_trans (le_of_lt hq) (by norm_num)), max_eq_left (le_of_lt hq)]
  · intro hq
    unfold clampQuality
    rw [min_eq_left (le_of_lt hq), max_eq_right (by norm_num)]
  · intro h0 h1
    exact clampQuality_eq_self h0 h1

/-- C10 witness: at the out-of-range quality 3/2 the policy for a JPEG file
coincides with the policy at quality 1. -/
theorem c10_witness :
    compress_image_policy ".jpg" (some "JPEG") (3 / 2)
      = compress_image_policy ".jpg" (some "JPEG") (clampQuality (3 / 2)) ∧
    clampQuality (3 / 2) = 1 := by
  have h := c10_quality_clamped (3 / 2) ".jpg" (some "JPEG")
  exact ⟨h.1, h.2.2.2.2.1 (by norm_num)⟩

/-! Claim C2: batch fan-out aggregation. -/

/-- Classification of a gathered download result as a success. -/
def dlOk : DLResult → Bool
  | .exc _ => false
  | .res r => r.success

/-- upload_file always re-associates its result with the originating path. -/
lemma upload_file_path (up : String → UploadOutcome) (p : String) :
    (upload_file up p).path = p := by
  unfold upload_file
  cases up p <;> rfl

/-- Partitioning a list by a Bool predicate preserves the total length. -/
lemma length_filter_split {α} (p : α → Bool) (l : List α) :
    (l.filter p).length + (l.filter (fun a => !p a)).length = l.length := by
  induction l with
  | nil => rfl
  | cons a t ih => by_cases h : p a <;> simp [List.filter_cons, h] <;> omega

/-- Filtering a mapped list is mapping the filtered list. -/
lemma filter_map_comm {α β} (f : α → β) (p : β → Bool) (l : List α) :
    (l.map f).filter p = (l.filter (fun a => p (f a))).map f := by
  induction l with
  | nil => rfl
  | cons a t ih =>
    by_cases h : p (f a) <;> simp [List.filter_cons, h, ih]

/-- The success/failure split computed by processDownloadResults, by
induction over the gathered (node id, result) pairs. -/
lemma processDownloadResults_split (names : List (String × String))
    (pairs : List (String × DLResult)) :
    (processDownloadResults names pairs).1.map DownloadedFile.node_id
      = (pairs.filter (fun pr => dlOk pr.2)).map (fun pr => pr.1) ∧
    (processDownloadResults names pairs).2.map NodeFailure.node_id
      = (pairs.filter (fun pr => !dlOk pr.2)).map (fun pr => pr.1) := by
  induction pairs with
  | nil => exact ⟨rfl, rfl⟩
  | cons hd tl ih =>
    obtain ⟨nid, r⟩ := hd
    match r with
    | .exc m =>
        simpa [processDownloadResults, dlOk, List.filter_cons] using ih
    | .res rec =>
        by_cases hs : rec.success <;>
          simpa [processDownloadResults, dlOk, hs, List.filter_cons] using ih

/-- C2: a batch of N uploads with K per-item failures aggregates to exactly
N-K successes and K failures re-associated with their paths, with
total_files = N, successful_count = N-K, failed_count = K and success true
iff K = 0, exceptions having been converted to per-item failures; and the
download fan-out equally splits its N gathered results into N-K
downloaded_files and K failed_downloads re-associated with their node ids. -/
theorem c2_batch_aggregation :
    (∀ (up : String → UploadOutcome) (paths : List String),
      (upload_multiple_files up paths).total_files = paths.length ∧
      (upload_multiple_files up paths).successful_count
        = paths.length - (paths.filter (fun p => !(upload_file up p).isOk)).length ∧
      (upload_multiple_files up paths).failed_count
        = (paths.filter (fun p => !(upload_file up p).isOk)).length ∧
      ((upload_multiple_files up paths).success = true ↔
        (paths.filter (fun p => !(upload_file up p).isOk)).length = 0) ∧
      (upload_multiple_files up paths).successful_uploads.map UploadRec.path
        = paths.filter (fun p => (upload_file up p).isOk) ∧
      (upload_multiple_files up paths).failed_uploads.map UploadRec.path
        = paths.filter (fun p => !(upload_file up p).isOk) ∧
      (∀ p m, up p = .exc m → upload_file up p = .fail m p)) ∧
    (∀ (names : List (String × String)) (pairs : List (String × DLResult)),
      (processDownloadResults names pairs).1.length
        = pairs.length - (pairs.filter (fun pr => !dlOk pr.2)).length ∧
      (processDownloadResults names pairs).2.length
        = (pairs.filter (fun pr => !dlOk pr.2)).length ∧
      (processDownloadResults names pairs).1.map DownloadedFile.node_id
        = (pairs.filter (fun pr => dlOk pr.2)).map (fun pr => pr.1) ∧
      (processDownloadResults names pairs).2.map NodeFailure.node_id
        = (pairs.filter (fun pr => !dlOk pr.2)).map (fun pr => pr.1)) := by
  constructor
  · intro up paths
    have hsplit := length_filter_split (fun p => (upload_file up p).isOk) paths
    have hsucc : (upload_multiple_files up paths).successful_uploads
        = (paths.filter (fun p => (upload_file up p).isOk)).map (upload_file up) := by
      unfold upload_multiple_files
      exact filter_map_comm (upload_file up) (fun r => r.isOk) paths
    have hfail : (upload_multiple_files up paths).failed_uploads
        = (paths.filter (fun p => !(upload_file up p).isOk)).map (upload_file up) := by
      unfold upload_multiple_files
      exact filter_map_comm (upload_file up) (fun r => !r.isOk) paths
    have hsucc_len : (upload_multiple_files up paths).successful_count
        = (paths.filter (fun p => (upload_file up p).isOk)).length := by
      have he : (upload_multiple_files up paths).successful_count
          = (upload_multiple_files up paths).successful_uploads.length := rfl
      rw [he, hsucc, List.length_map]
    have hfail_len : (upload_multiple_files up paths).failed_count
        = (paths.filter (fun p => !(upload_file up p).isOk)).length := by
      have he : (upload_multiple_files up paths).failed_count
          = (upload_multiple_files up paths).failed_uploads.length := rfl
      rw [he, hfail, List.length_map]
    refine ⟨rfl, ?_, hfail_len, ?_, ?_, ?_, ?_⟩
    · rw [hsucc_len]; omega
    · have hse : (upload_multiple_files up paths).success
          = (upload_multiple_files up paths).failed_uploads.isEmpty := rfl
      rw [hse, List.isEmpty_iff, hfail]
      constructor
      · intro h
        have := congrArg List.length h
        simpa using this
      · intro h
        have hnil : paths.filter (fun p => !(upload_file up p).isOk) = [] :=
          List.eq_nil_of_length_eq_zero h
        rw [hnil]; rfl
    · rw [hsucc, List.map_map]
      have : (UploadRec.path ∘ upload_file up) = fun p => ((upload_file up p).path) := rfl
      rw [this]
      calc (paths.filter (fun p => (upload_file up p).isOk)).map
            (fun p => (upload_file up p).path)
          = (paths.filter (fun p => (upload_file up p).isOk)).map id := by
            apply List.map_congr_left
            intro a _
            simp [upload_file_path]
      _ = _ := by rw [List.map_id]
    · rw [hfail, List.map_map]
      have : (UploadRec.path ∘ upload_file up) = fun p => ((upload_file up p).path) := rfl
      rw [this]
      calc (paths.filter (fun p => !(upload_file up p).isOk)).map
            (fun p => (upload_file up p).path)
          = (paths.filter (fun p => !(upload_file up p).isOk)).map id := by
            apply List.map_congr_left
            intro a _
            simp [upload_file_path]
      _ = _ := by rw [List.map_id]
    · intro p m hm
      unfold upload_file
      rw [hm]
  · intro names pairs
    have hmap := processDownloadResults_split names pairs
    have h1 : (processDownloadResults names pairs).1.length
        = (pairs.filter (fun pr => dlOk pr.2)).length := by
      have := congrArg List.length hmap.1
      simpa using this
    have h2 : (processDownloadResults names pairs).2.length
        = (pairs.filter (fun pr => !dlOk pr.2)).length := by
      have := congrArg List.length hmap.2
      simpa using this
    have hsplit := length_filter_split (fun pr : String × DLResult => dlOk pr.2) pairs
    exact ⟨by omega, h2, hmap.1, hmap.2⟩

/-- C2 witness: three uploads with one failing path aggregate to counts
(3, 2, 1) with success false, via the claim theorem at a concrete batch. -/
theorem c2_witness :
    (upload_multiple_files
        (fun p => if p = "temp-images/b.png" then .fail "boom" else .ok 3 "https://u")
        ["temp-images/a.png", "temp-images/b.png", "temp-images/c.png"]).total_files = 3 ∧
    (upload_multiple_files
        (fun p => if p = "temp-images/b.png" then .fail "boom" else .ok 3 "https://u")
        ["temp-images/a.png", "temp-images/b.png", "temp-images/c.png"]).successful_count = 2 ∧
    (upload_multiple_files
        (fun p => if p = "temp-images/b.png" then .fail "boom" else .ok 3 "https://u")
        ["temp-images/a.png", "temp-images/b.png", "temp-images/c.png"]).failed_count = 1 := by
  have h := c2_batch_aggregation.1
    (fun p => if p = "temp-images/b.png" then .fail "boom" else .ok 3 "https://u")
    ["temp-images/a.png", "temp-images/b.png", "temp-images/c.png"]
  refine ⟨h.1, ?_, ?_⟩
  · rw [h.2.1]; decide
  · rw [h.2.2.1]; decide

/-! Claim C3: retry budget and backoff schedule of download_image_from_url. -/

/-- An attempt outcome that does not succeed: a non-200 status or a raised
transport exception. -/
def attemptFailsB : AttemptOutcome → Bool
  | .resp s _ => s != 200
  | .exc _ => true

/-- Behaviour of the attempt loop when every remaining attempt fails: it
consumes the whole remaining budget, sleeps 2 ^ attempt between consecutive
attempts, and ends in a structured failure record. -/
lemma downloadAttempts_all_fail (oracle : Nat → AttemptOutcome) (co : CompressOutcome)
    (dir fname : String) (max_retries : Nat) :
    ∀ fuel attempt, attempt + fuel = max_retries + 1 → 1 ≤ fuel →
    (∀ k, attempt ≤ k → k ≤ max_retries → attemptFailsB (oracle k) = true) →
    (downloadAttempts oracle co dir fname max_retries attempt fuel).1.success = false ∧
    ((downloadAttempts oracle co dir fname max_retries attempt fuel).1.error).isSome = true ∧
    (downloadAttempts oracle co dir fname max_retries attempt fuel).2.1
      = (List.range' attempt (fuel - 1)).map (fun a => 2 ^ a) ∧
    (downloadAttempts oracle co dir fname max_retries attempt fuel).2.2 = fuel := by
  intro fuel
  induction fuel with
  | zero => intro attempt hsum h1; omega
  | succ n ih =>
    intro attempt hsum _ hfail
    have hk : attemptFailsB (oracle attempt) = true := hfail attempt le_rfl (by omega)
    by_cases hlt : attempt < max_retries
    · have hn : 1 ≤ n := by omega
      have hrec := ih (attempt + 1) (by omega) hn
        (fun k hk1 hk2 => hfail k (by omega) hk2)
      have hrange : List.range' attempt (n + 1 - 1) = attempt :: List.range' (attempt + 1) (n - 1) := by
        have h2 : n + 1 - 1 = (n - 1) + 1 := by omega
        rw [h2, List.range'_succ]
      cases ho : oracle attempt with
      | resp status size =>
          have hs : ¬(status = 200) := by
            simp [attemptFailsB, ho] at hk
            exact hk
          simp only [downloadAttempts, ho, if_neg hs, if_pos hlt]
          refine ⟨hrec.1, hrec.2.1, ?_, by rw [hrec.2.2.2]⟩
          rw [hrec.2.2.1, hrange, List.map_cons]
      | exc m =>
          simp only [downloadAttempts, ho, if_pos hlt]
          refine ⟨hrec.1, hrec.2.1, ?_, by rw [hrec.2.2.2]⟩
          rw [hrec.2.2.1, hrange, List.map_cons]
    · have hend : attempt = max_retries := by omega
      have hn0 : n = 0 := by omega
      subst hn0
      cases ho : oracle attempt with
      | resp status size =>
          have hs : ¬(status = 200) := by
            simp [attemptFailsB, ho] at hk
            exact hk
          simp [downloadAttempts, ho, if_neg hs, hlt]
      | exc m =>
          simp [downloadAttempts, ho, hlt]

/-- C3: against a URL whose every attempt fails (non-200 status or transport
exception), download_image_from_url makes exactly max_retries + 1 attempts,
sleeps exactly 2^0, 2^1, ..., 2^(max_retries-1) time units between
consecutive attempts (a strictly increasing power-of-two schedule), and
returns a structured failure record instead of raising. -/
theorem c3_download_retry_schedule (oracle : Nat → AttemptOutcome) (co : CompressOutcome)
    (dir fname : String) (max_retries : Nat)
    (hfail : ∀ k, k ≤ max_retries → attemptFailsB (oracle k) = true) :
    (download_image_from_url oracle co dir fname max_retries).1.success = false ∧
    ((download_image_from_url oracle co dir fname max_retries).1.error).isSome = true ∧
    (download_image_from_url oracle co dir fname max_retries).2.2 = max_retries + 1 ∧
    (download_image_from_url oracle co dir fname max_retries).2.1
      = (List.range max_retries).map (fun a => 2 ^ a) ∧
    List.Pairwise (· < ·)
      ((download_image_from_url oracle co dir fname max_retries).2.1) := by
  have h := downloadAttempts_all_fail oracle co dir fname max_retries (max_retries + 1) 0
    (by omega) (by omega) (fun k _ hk2 => hfail k hk2)
  have hr : List.range' 0 (max_retries + 1 - 1) = List.range max_retries := by
    rw [List.range_eq_range']
    congr 1
  refine ⟨h.1, h.2.1, h.2.2.2, ?_, ?_⟩
  · rw [show (download_image_from_url oracle co dir fname max_retries)
        = downloadAttempts oracle co dir fname max_retries 0 (max_retries + 1) from rfl,
      h.2.2.1, hr]
  · rw [show (download_image_from_url oracle co dir fname max_retries)
        = downloadAttempts oracle co dir fname max_retries 0 (max_retries + 1) from rfl,
      h.2.2.1, hr]
    rw [List.pairwise_map]
    apply List.Pairwise.imp ?_ (List.pairwise_lt_range max_retries)
    intro a b hab
    exact Nat.pow_lt_pow_right (by norm_num) hab

/-- C3 witness: with the default budget max_retries = 3 and a permanently
500-responding URL, the loop makes 4 attempts and sleeps 1, 2, 4. -/
theorem c3_witness :
    (download_image_from_url (fun _ => .resp 500 0) (.fail "x") "temp-images" "a.png" 3).2.2
      = 4 ∧
    (download_image_from_url (fun _ => .resp 500 0) (.fail "x") "temp-images" "a.png" 3).2.1
      = [1, 2, 4] ∧
    (download_image_from_url (fun _ => .resp 500 0) (.fail "x") "temp-images" "a.png" 3).1.success
      = false := by
  have h := c3_download_retry_schedule (fun _ => .resp 500 0) (.fail "x") "temp-images"
    "a.png" 3 (fun k _ => rfl)
  refine ⟨h.2.2.1, ?_, h.1⟩
  rw [h.2.2.2.1]
  rfl

/-! Claim C7: local validation before any remote call. -/

/-- C7: a format outside the fixed enum or a scale outside [0.01, 4.0] makes
get_figma_images_data return a local validation error with an empty request
trace: no network request is issued. -/
theorem c7_fetch_validates_before_network (file_key access_token node_ids fmt : String)
    (scale : ℚ) (resp : FigmaResp ImagesBody)
    (h : fmt ∉ validFormats ∨ ¬((1 / 100 : ℚ) ≤ scale ∧ scale ≤ 4)) :
    (∃ e, (get_figma_images_data file_key access_token node_ids fmt scale resp).1
      = .fail e) ∧
    (get_figma_images_data file_key access_token node_ids fmt scale resp).2 = [] := by
  unfold get_figma_images_data
  by_cases hf : fmt ∉ validFormats
  · rw [if_pos hf]
    exact ⟨⟨_, rfl⟩, rfl⟩
  · have hs : ¬((1 / 100 : ℚ) ≤ scale ∧ scale ≤ 4) := by tauto
    rw [if_neg hf, if_pos hs]
    exact ⟨⟨_, rfl⟩, rfl⟩

/-- C7 witness: the format "gif" is rejected locally and the request trace is
empty even though a response oracle is at hand. -/
theorem c7_witness :
    (get_figma_images_data "fk" "tok" "1:1" "gif" 1
      (.ok ⟨[("1:1", "https://u")], none⟩)).2 = [] ∧
    (get_figma_images_data "fk" "tok" "1:1" "gif" 1
      (.ok ⟨[("1:1", "https://u")], none⟩)).1
      = .fail "无效的图像格式: gif。支持的格式: jpg, png, svg, pdf" := by
  have h := c7_fetch_validates_before_network "fk" "tok" "1:1" "gif" 1
    (.ok ⟨[("1:1", "https://u")], none⟩) (Or.inl (by decide))
  exact ⟨h.2, rfl⟩

/-! Claim C8: export-children with zero children is terminal. -/

/-- C8: when export_children is set and the child-resolution query succeeds
with zero extracted children, the tool fails immediately with the fixed
no-children error and the whole network trace is the single depth-1
child-resolution query: no URL fetch, download or upload happens. -/
theorem c8_no_children_terminal (file_key node_ids fmt : String) (scale q : ℚ)
    (access_token : String) (nodes : NodesBody) (namesResp : FigmaResp NodesBody)
    (imagesResp : FigmaResp ImagesBody) (dl : String → DLResult)
    (up : String → UploadOutcome) (timestamp : String)
    (htok : access_token ≠ "") (hempty : extractChildIds nodes = []) :
    get_figma_images file_key node_ids fmt scale q true access_token (.ok nodes)
        namesResp imagesResp dl up timestamp
      = (.err "指定节点没有子节点可导出", [.nodesQuery file_key node_ids 1]) := by
  unfold get_figma_images get_child_node_ids
  rw [if_neg htok]
  simp [hempty]

/-- C8 witness: a parent frame with an empty child list is a terminal error
after exactly one metadata query. -/
theorem c8_witness :
    get_figma_images "fk" "1:1" "png" 1 (85 / 100) true "tok"
        (.ok [("1:1", some ⟨"Frame", []⟩)]) (.ok []) (.ok ⟨[], none⟩)
        (fun _ => .exc "unused") (fun _ => .fail "unused") "20250101_120000"
      = (.err "指定节点没有子节点可导出", [.nodesQuery "fk" "1:1" 1]) := by
  exact c8_no_children_terminal "fk" "1:1" "png" 1 (85 / 100) "tok"
    [("1:1", some ⟨"Frame", []⟩)] (.ok []) (.ok ⟨[], none⟩)
    (fun _ => .exc "unused") (fun _ => .fail "unused") "20250101_120000"
    (by decide) rfl

/-! Claim C9: the upload provider's response parser. -/

/-- C9 counterexample: a bare top-level url body without code 0 or a truthy
success flag is rejected by _parse_response with the default server error,
not accepted as a successful result carrying that URL. -/
theorem c9_counterexample :
    parse_response [("url", .str "https://cdn/u")]
      = (none, some (.str "Unknown server error")) ∧
    (parse_response [("url", .str "https://cdn/u")]).1 ≠ some (.str "https://cdn/u") := by
  refine ⟨rfl, ?_⟩
  intro h
  exact Option.noConfusion h

/-- True exactly when an optional data field is a string or an object: the
two shapes _parse_response treats specially inside its success branch. -/
def dataIsStrOrObj : Option JVal → Bool
  | some (.str _) => true
  | some (.obj _) => true
  | _ => false

/-- C9 (amended): _parse_response yields a successful result (no error
component) exactly when the body carries code == 0 or a truthy success
field; in that case a string data field is returned as the url, an object
data field contributes its url member, and when data is absent or of any
other type the top-level url field is returned as the url; every other body
(including a bare top-level url shape) yields an error carrying the body's
message field when present and a fixed default otherwise. -/
theorem c9_parse_response_shapes (fields : List (String × JVal)) :
    ((parse_response fields).2 = none ↔
      (pyEqZero (dget fields "code") || pyTruthy (dget fields "success")) = true) ∧
    ((pyEqZero (dget fields "code") || pyTruthy (dget fields "success")) = true →
      ((∀ s, dget fields "data" = some (.str s) →
          parse_response fields = (some (.str s), none)) ∧
       (∀ o, dget fields "data" = some (.obj o) →
          parse_response fields = (dget o "url", none)) ∧
       (dataIsStrOrObj (dget fields "data") = false →
          parse_response fields = (dget fields "url", none)))) ∧
    ((pyEqZero (dget fields "code") || pyTruthy (dget fields "success")) ≠ true →
      parse_response fields
        = (none, some (dgetD fields "message" (.str "Unknown server error")))) := by
  by_cases hb : (pyEqZero (dget fields "code") || pyTruthy (dget fields "success")) = true
  · have hsucc : (parse_response fields).2 = none := by
      unfold parse_response
      rw [if_pos hb]
      rcases hd : dget fields "data" with _ | jv
      · rfl
      · cases jv <;> rfl
    refine ⟨⟨fun _ => hb, fun _ => hsucc⟩, fun _ => ⟨?_, ?_, ?_⟩, fun habs => absurd hb habs⟩
    · intro s hd
      unfold parse_response
      rw [if_pos hb, hd]
    · intro o hd
      unfold parse_response
      rw [if_pos hb, hd]
    · intro hd
      unfold parse_response
      rw [if_pos hb]
      rcases hdata : dget fields "data" with _ | jv
      · rfl
      · cases jv with
        | str s => rw [hdata] at hd; exact absurd hd (by simp [dataIsStrOrObj])
        | obj o => rw [hdata] at hd; exact absurd hd (by simp [dataIsStrOrObj])
        | null => rfl
        | bool b => rfl
        | num n => rfl
        | arr e => rfl
  · have herr : parse_response fields
        = (none, some (dgetD fields "message" (.str "Unknown server error"))) := by
      unfold parse_response
      rw [if_neg hb]
    refine ⟨?_, fun habs => absurd habs hb, fun _ => herr⟩
    rw [herr]
    constructor
    · intro h
      exact absurd h (by simp)
    · intro h
      exact absurd h hb

/-- C9 witness: a code-0 body with a string data field parses to that URL,
and a truthy-success body without a data field falls back to its top-level
url field, both via the amended theorem at concrete bodies. -/
theorem c9_witness :
    parse_response [("code", .num 0), ("data", .str "https://cdn/u")]
      = (some (.str "https://cdn/u"), none) ∧
    parse_response [("success", .bool true), ("url", .str "https://cdn/v")]
      = (some (.str "https://cdn/v"), none) := by
  have h := c9_parse_response_shapes [("code", .num 0), ("data", .str "https://cdn/u")]
  have h2 := c9_parse_response_shapes [("success", .bool true), ("url", .str "https://cdn/v")]
  exact ⟨(h.2.1 rfl).1 "https://cdn/u" rfl, (h2.2.1 rfl).2.2 rfl⟩

/-! Claim C4: filename uniqueness within a run. -/

/-- Strings with equal character data are equal. -/
lemma string_data_inj {s t : String} (h : s.data = t.data) : s = t := by
  cases s
  cases t
  simp only at h
  rw [h]

/-- The digit characters are never an underscore. -/
lemma digitChar_ne_underscore (m : Nat) : digitChar m ≠ '_' := by
  unfold digitChar
  split <;> decide

/-- Every character the decimal renderer produces is a digit character or
comes from the accumulator. -/
lemma natToCharsAux_chars :
    ∀ (fuel n : Nat) (acc : List Char) (c : Char), c ∈ natToCharsAux fuel n acc →
      (∃ m, c = digitChar m) ∨ c ∈ acc := by
  intro fuel
  induction fuel with
  | zero =>
    intro n acc c hc
    exact Or.inr hc
  | succ f ih =>
    intro n acc c hc
    unfold natToCharsAux at hc
    by_cases h : n < 10
    · rw [if_pos h] at hc
      rcases List.mem_cons.mp hc with hc | hc
      · exact Or.inl ⟨n, hc⟩
      · exact Or.inr hc
    · rw [if_neg h] at hc
      rcases ih (n / 10) (digitChar (n % 10) :: acc) c hc with hd | hm
      · exact Or.inl hd
      · rcases List.mem_cons.mp hm with hc2 | hc2
        · exact Or.inl ⟨n % 10, hc2⟩
        · exact Or.inr hc2

/-- Python str() of a positive integer contains no underscore. -/
lemma natToString_no_underscore (n : Nat) : ('_' : Char) ∉ (natToString n).data := by
  intro h
  rcases natToCharsAux_chars (n + 1) n [] '_' h with ⟨m, hm⟩ | h2
  · exact digitChar_ne_underscore m hm.symm
  · exact absurd h2 (List.not_mem_nil _)

/-- Splitting at the first occurrence of a marker character is unambiguous:
equal concatenations around marker-free prefixes agree on both sides. -/
lemma marker_split {m : Char} :
    ∀ (r1 s1 r2 s2 : List Char), m ∉ r1 → m ∉ r2 →
      r1 ++ m :: s1 = r2 ++ m :: s2 → r1 = r2 ∧ s1 = s2 := by
  intro r1
  induction r1 with
  | nil =>
    intro s1 r2 s2 h1 h2 heq
    cases r2 with
    | nil => simpa using heq
    | cons b t =>
      rw [List.nil_append, List.cons_append] at heq
      injection heq with hb ht
      exact absurd (hb ▸ List.mem_cons_self b t) h2
  | cons a t ih =>
    intro s1 r2 s2 h1 h2 heq
    cases r2 with
    | nil =>
      rw [List.nil_append, List.cons_append] at heq
      injection heq with hb ht
      exact absurd (hb ▸ List.mem_cons_self a t) h1
    | cons b t2 =>
      rw [List.cons_append, List.cons_append] at heq
      injection heq with hab ht
      have hrec := ih s1 t2 s2 (fun hm => h1 (List.mem_cons_of_mem a hm))
        (fun hm => h2 (List.mem_cons_of_mem b hm)) ht
      exact ⟨by rw [hab, hrec.1], hrec.2⟩

/-- Injectivity of the fallback filename chain in the node id: with a common
prefix, timestamp and extension and digit-only (hence underscore-free) index
components, equal concatenations force equal ids and equal indices. -/
lemma fallback_chain_inj (pD TD fmtD id1 id2 m1 m2 : List Char)
    (hm1 : ('_' : Char) ∉ m1) (hm2 : ('_' : Char) ∉ m2)
    (h : pD ++ id1 ++ ['_'] ++ TD ++ ['_'] ++ m1 ++ ['.'] ++ fmtD
       = pD ++ id2 ++ ['_'] ++ TD ++ ['_'] ++ m2 ++ ['.'] ++ fmtD) :
    id1 = id2 ∧ m1 = m2 := by
  have hrev := congrArg List.reverse h
  simp only [List.reverse_append, List.reverse_cons, List.reverse_nil, List.nil_append,
    List.append_assoc, List.singleton_append] at hrev
  have h1 := List.append_cancel_left hrev
  injection h1 with _ h2
  simp only [List.append_eq, List.append_assoc, List.singleton_append] at h2
  have h3 := marker_split m1.reverse _ m2.reverse _
    (by simpa using hm1) (by simpa using hm2) h2
  have hm : m1 = m2 := by
    have hr := congrArg List.reverse h3.1
    simpa using hr
  have h5 := List.append_cancel_left h3.2
  injection h5 with _ h6
  have h7 := List.append_cancel_right h6
  have hid : id1 = id2 := by
    have hr := congrArg List.reverse h7
    simpa using hr
  exact ⟨hid, hm⟩

/-- Two fallback filenames of one run (same timestamp, same extension) can
only coincide when they were generated for the same node id. -/
lemma fallbackFilename_inj {id1 id2 T fmt : String} {i j : Nat}
    (heq : fallbackFilename id1 T fmt i = fallbackFilename id2 T fmt j) :
    id1 = id2 := by
  have hdata : ("figma_export_".data ++ id1.data ++ ['_'] ++ T.data ++ ['_']
      ++ (natToString (i + 1)).data ++ ['.'] ++ fmt.data)
      = ("figma_export_".data ++ id2.data ++ ['_'] ++ T.data ++ ['_']
      ++ (natToString (j + 1)).data ++ ['.'] ++ fmt.data) := congrArg String.data heq
  exact string_data_inj (fallback_chain_inj "figma_export_".data T.data fmt.data
    id1.data id2.data (natToString (i + 1)).data (natToString (j + 1)).data
    (natToString_no_underscore _) (natToString_no_underscore _) hdata).1

/-- C4 counterexample: two distinct node ids whose documents share the name
Icon both receive the preferred filename Icon.png inside one run's download
plan, so the generated filenames are not pairwise unique. -/
theorem c4_counterexample :
    ((buildDownloadPlan
        (buildNodeNames [("1:1", some ⟨"Icon", []⟩), ("1:2", some ⟨"Icon", []⟩)])
        "20250101_120000" "png"
        [("1:1", "https://u1"), ("1:2", "https://u2")]).1.map (fun t => t.2.2))
      = ["Icon.png", "Icon.png"] ∧ ("1:1" : String) ≠ "1:2" := by
  exact ⟨rfl, by decide⟩

/-- C4 (amended): filenames of the fallback form are pairwise unique across
distinct node ids of a run (shared per-run timestamp and extension, any
positional indices); uniqueness holds only for the fallback form, since
distinct nodes sharing a sanitized name collide on the preferred form. -/
theorem c4_fallback_filenames_unique (id1 id2 T fmt : String) (i j : Nat)
    (h : id1 ≠ id2) :
    fallbackFilename id1 T fmt i ≠ fallbackFilename id2 T fmt j :=
  fun heq => h (fallbackFilename_inj heq)

/-- C4 witness: two concrete distinct node ids produce distinct fallback
filenames via the amended theorem. -/
theorem c4_witness :
    fallbackFilename "1:1" "20250101_120000" "png" 0
      ≠ fallbackFilename "1:2" "20250101_120000" "png" 1 :=
  c4_fallback_filenames_unique "1:1" "1:2" "20250101_120000" "png" 0 1 (by decide)

/-! Claim C1: the caller-visible report of the two-node scenario. -/

/-- Two suffixes of one list with equal lengths coincide. -/
lemma suffix_eq_of_length {l1 l2 l : List Char} (h1 : l1 <:+ l) (h2 : l2 <:+ l)
    (hl : l1.length = l2.length) : l1 = l2 := by
  obtain ⟨a, ha⟩ := h1
  obtain ⟨b, hb⟩ := h2
  have hab2 : a ++ l1 = b ++ l2 := by rw [ha, hb]
  have hab : a.length = b.length := by
    have hlen := congrArg List.length hab2
    simp at hlen
    omega
  exact (List.append_inj hab2 hab).2

/-- The Boolean suffix test agrees with the suffix relation. -/
lemma isSuffixOf_iff_suffix {l1 l2 : List Char} : l1.isSuffixOf l2 = true ↔ l1 <:+ l2 := by
  unfold List.isSuffixOf
  rw [List.isPrefixOf_iff_prefix, List.reverse_prefix]

/-- A filename ending in .png passes exactly the .png entry of the image
extension filter of upload_folder_images. -/
lemma png_file_passes_filter (p : String) (xs : List Char)
    (hp : p.data = xs ++ ".png".data) :
    imageExtensions.flatMap (fun ext => [p].filter (fun q => strEndsWith q ext)) = [p] := by
  have hsuf : (".png".data : List Char) <:+ p.data := by
    rw [hp]
    exact List.suffix_append xs _
  have h4 : ∀ e : List Char, e.length = 4 → e <:+ p.data → e = ".png".data := by
    intro e hlen hs
    exact suffix_eq_of_length hs hsuf (by rw [hlen]; rfl)
  have hneg : ∀ ext : String, ¬(ext.data <:+ p.data) → strEndsWith p ext = false := by
    intro ext h
    cases hval : strEndsWith p ext with
    | false => rfl
    | true => exact absurd (isSuffixOf_iff_suffix.mp hval) h
  have htail : ∀ (c : Char) (l : List Char), (c :: l) <:+ p.data → l <:+ p.data := by
    intro c l h
    obtain ⟨a, ha⟩ := h
    exact ⟨a ++ [c], by simp [ha]⟩
  have hpng : strEndsWith p ".png" = true := isSuffixOf_iff_suffix.mpr hsuf
  have hjpg : strEndsWith p ".jpg" = false := by
    refine hneg ".jpg" (fun hs => ?_)
    have he := h4 ".jpg".data (by rfl) hs
    simp at he
  have hjpeg : strEndsWith p ".jpeg" = false := by
    refine hneg ".jpeg" (fun hs => ?_)
    have hs2 : ("jpeg".data : List Char) <:+ p.data := htail '.' "jpeg".data hs
    have he := h4 "jpeg".data (by rfl) hs2
    simp at he
  have hgif : strEndsWith p ".gif" = false := by
    refine hneg ".gif" (fun hs => ?_)
    have he := h4 ".gif".data (by rfl) hs
    simp at he
  have hsvg : strEndsWith p ".svg" = false := by
    refine hneg ".svg" (fun hs => ?_)
    have he := h4 ".svg".data (by rfl) hs
    simp at he
  have hwebp : strEndsWith p ".webp" = false := by
    refine hneg ".webp" (fun hs => ?_)
    have hs2 : ("webp".data : List Char) <:+ p.data := htail '.' "webp".data hs
    have he := h4 "webp".data (by rfl) hs2
    simp at he
  simp [imageExtensions, List.flatMap, List.filter, hpng, hjpg, hjpeg, hgif, hsvg, hwebp]

/-- The two-node scenario computed through the whole pipeline model: one
empty-URL node and one valid node whose download and upload succeed.  The
export stage records the empty-URL node in failed_downloads, but the final
report carries exactly the one successful upload and an empty failed_uploads
list: the fetch-stage failure does not reach the caller. -/
lemma c1_two_node_model (fk ids tok n1 n2 u T uurl : String) (q : ℚ) (sz szu : Nat)
    (dl : String → DLResult) (up : String → UploadOutcome) (childResp : FigmaResp NodesBody)
    (htok : tok ≠ "") (hu : u ≠ "")
    (hdl : dl n2 = .res ⟨true, "temp-images/" ++ fallbackFilename n2 T "png" 1,
      fallbackFilename n2 T "png" 1, sz, none, none, none⟩)
    (hup : up ("temp-images/" ++ fallbackFilename n2 T "png" 1) = .ok szu uurl) :
    (get_figma_images fk ids "png" 1 q false tok childResp (.ok [])
        (.ok ⟨[(n1, ""), (n2, u)], none⟩) dl up T).1
      = .report [⟨basename ("temp-images/" ++ fallbackFilename n2 T "png" 1), uurl⟩] [] ∧
    (export_figma_images_to_folder fk tok ids "png" 1 q (.ok [])
        (.ok ⟨[(n1, ""), (n2, u)], none⟩) dl T).1
      = .ok ⟨fk, "png", 1,
          [⟨n2, "temp-images/" ++ fallbackFilename n2 T "png" 1,
            fallbackFilename n2 T "png" 1, sz, false⟩],
          [⟨n1, "图像URL为空"⟩]⟩ := by
  have hfetch : get_figma_images_data fk tok ids "png" 1 (.ok ⟨[(n1, ""), (n2, u)], none⟩)
      = (.ok [(n1, ""), (n2, u)] none [n1], [.imagesQuery fk ids "png" 1]) := by
    unfold get_figma_images_data
    rw [if_neg (by decide), if_neg (by norm_num)]
    simp [List.filter_cons, hu]
  have hexp : (export_figma_images_to_folder fk tok ids "png" 1 q (.ok [])
      (.ok ⟨[(n1, ""), (n2, u)], none⟩) dl T).1
      = .ok ⟨fk, "png", 1,
          [⟨n2, "temp-images/" ++ fallbackFilename n2 T "png" 1,
            fallbackFilename n2 T "png" 1, sz, false⟩],
          [⟨n1, "图像URL为空"⟩]⟩ := by
    unfold export_figma_images_to_folder
    simp only [hfetch]
    simp [buildDownloadPlan, buildDownloadPlanAux, chooseFilename, hu, hdl,
      processDownloadResults, List.lookup]
  refine ⟨?_, hexp⟩
  have hp : ("temp-images/" ++ fallbackFilename n2 T "png" 1).data
      = ("temp-images/".data ++ ("figma_export_".data ++ (n2.data ++ (['_'] ++ (T.data
          ++ (['_'] ++ (natToString 2).data)))))) ++ ".png".data := by
    simp [fallbackFilename, List.append_assoc]
  have hfilter := png_file_passes_filter _ _ hp
  have hbatch : upload_folder_images ["temp-images/" ++ fallbackFilename n2 T "png" 1] up
      = ⟨true, 1, 1, 0,
          [.ok (basename ("temp-images/" ++ fallbackFilename n2 T "png" 1)) szu uurl
            ("temp-images/" ++ fallbackFilename n2 T "png" 1)], [], szu⟩ := by
    unfold upload_folder_images
    rw [hfilter, if_neg (by simp)]
    simp [upload_multiple_files, upload_file, hup, UploadRec.isOk, UploadRec.sizeD,
      List.filter]
  unfold get_figma_images serverExportAndUpload
  rw [if_neg htok]
  simp only [Bool.false_eq_true, if_false]
  simp only [hexp]
  simp [hbatch, UploadRec.fileNameD, UploadRec.urlD]

/-- C1 counterexample: in the two-node scenario (empty URL for node 1:1,
valid URL for node 1:2 whose download and upload succeed) the final report
has its one successful upload and an EMPTY failed_uploads list, not the one
failed entry for the empty-URL node the claim demands: server.py rebuilds
the report from the upload stage only and drops export-stage failures. -/
theorem c1_counterexample :
    (get_figma_images "fk" "1:1,1:2" "png" 1 (85 / 100) false "t" (.ok []) (.ok [])
        (.ok ⟨[("1:1", ""), ("1:2", "https://u2")], none⟩)
        (fun n => if n = "1:2" then .res ⟨true,
          "temp-images/" ++ fallbackFilename "1:2" "20250101_120000" "png" 1,
          fallbackFilename "1:2" "20250101_120000" "png" 1, 100, none, none, none⟩
          else .exc "unexpected")
        (fun _ => .ok 100 "https://cdn/u") "20250101_120000").1
      = .report [⟨"figma_export_1:2_20250101_120000_2.png", "https://cdn/u"⟩] [] := by
  have h := (c1_two_node_model "fk" "1:1,1:2" "t" "1:1" "1:2" "https://u2" "20250101_120000"
    "https://cdn/u" (85 / 100) 100 100
    (fun n => if n = "1:2" then .res ⟨true,
      "temp-images/" ++ fallbackFilename "1:2" "20250101_120000" "png" 1,
      fallbackFilename "1:2" "20250101_120000" "png" 1, 100, none, none, none⟩
      else .exc "unexpected")
    (fun _ => .ok 100 "https://cdn/u") (.ok [])
    (by decide) (by decide) (by simp) rfl).1
  rw [h]
  rfl

/-- C1 (amended): in the two-node scenario the final report contains exactly
one successful_uploads entry and zero failed_uploads entries; the empty-URL
node's failure is recorded at the fetch stage in the export result's
failed_downloads list (no download is attempted for it), but that list is
dropped when server.py builds the caller-visible report from the upload
stage alone. -/
theorem c1_report_drops_fetch_failures (fk ids tok n1 n2 u T uurl : String) (q : ℚ)
    (sz szu : Nat) (dl : String → DLResult) (up : String → UploadOutcome)
    (childResp : FigmaResp NodesBody)
    (htok : tok ≠ "") (hu : u ≠ "")
    (hdl : dl n2 = .res ⟨true, "temp-images/" ++ fallbackFilename n2 T "png" 1,
      fallbackFilename n2 T "png" 1, sz, none, none, none⟩)
    (hup : up ("temp-images/" ++ fallbackFilename n2 T "png" 1) = .ok szu uurl) :
    (get_figma_images fk ids "png" 1 q false tok childResp (.ok [])
        (.ok ⟨[(n1, ""), (n2, u)], none⟩) dl up T).1
      = .report [⟨basename ("temp-images/" ++ fallbackFilename n2 T "png" 1), uurl⟩] [] ∧
    (export_figma_images_to_folder fk tok ids "png" 1 q (.ok [])
        (.ok ⟨[(n1, ""), (n2, u)], none⟩) dl T).1
      = .ok ⟨fk, "png", 1,
          [⟨n2, "temp-images/" ++ fallbackFilename n2 T "png" 1,
            fallbackFilename n2 T "png" 1, sz, false⟩],
          [⟨n1, "图像URL为空"⟩]⟩ :=
  c1_two_node_model fk ids tok n1 n2 u T uurl q sz szu dl up childResp htok hu hdl hup

/-- C1 witness: the amended theorem at the concrete two-node scenario. -/
theorem c1_witness :
    (get_figma_images "fk2" "9:1,9:2" "png" 1 (1 / 2) false "tok" (.ok []) (.ok [])
        (.ok ⟨[("9:1", ""), ("9:2", "https://value")], none⟩)
        (fun n => if n = "9:2" then .res ⟨true,
          "temp-images/" ++ fallbackFilename "9:2" "20250202_000000" "png" 1,
          fallbackFilename "9:2" "20250202_000000" "png" 1, 7, none, none, none⟩
          else .exc "unexpected")
        (fun _ => .ok 7 "https://cdn/w") "20250202_000000").1
      = .report [⟨"figma_export_9:2_20250202_000000_2.png", "https://cdn/w"⟩] [] := by
  have h := (c1_report_drops_fetch_failures "fk2" "9:1,9:2" "tok" "9:1" "9:2"
    "https://value" "20250202_000000" "https://cdn/w" (1 / 2) 7 7
    (fun n => if n = "9:2" then .res ⟨true,
      "temp-images/" ++ fallbackFilename "9:2" "20250202_000000" "png" 1,
      fallbackFilename "9:2" "20250202_000000" "png" 1, 7, none, none, none⟩
      else .exc "unexpected")
    (fun _ => .ok 7 "https://cdn/w") (.ok [])
    (by decide) (by decide) (by simp) rfl).1
  rw [h]
  rfl

end FigmaMcp
